import Mathlib

/-!
Verification development for the udptun client (src/cli.c, src/sock.c).

The C sources are shallowly embedded: buffers are lists of byte values
(`List Nat`, entries < 256 where it matters), machine integers that can be
negative (syscall return values) are `Int`, process-terminating calls to
`die` are modelled by explicit `fatal` constructors, and each C function
that performs I/O is modelled as a pure function from its inputs (including
the bytes the descriptors would yield) to a description of the actions it
performs.

Functions of this repository that live in files not present under src/
(notably `forge_icmp` and the checksum routine of icmp.c) are modelled from
the specification and marked as such in their doc comments.
-/

namespace Udptun

/-- A public transport address: 4-byte IPv4 address and UDP port
(`struct sockaddr_in` as stored in a `tun_rec`, cli.c:126). -/
structure PubAddr where
  ip : List Nat
  port : Nat
deriving DecidableEq

/-- The address table of one family: exact-match association from a private
address key (4 bytes for `cli4`, 16 bytes for `cli6`) to the peer's public
transport address.  Models the GHashTable `state->cli4` / `state->cli6`
queried by `g_hash_table_lookup` (cli.c:125, cli.c:150). -/
def PeerTable : Type := List (List Nat × PubAddr)

/-- The fields of `struct tun_state` the forwarding path reads
(state.h is external; the fields used in cli.c are the `planetlab` framing
flag and the two peer tables). -/
structure tun_state where
  planetlab : Bool
  cli4 : PeerTable
  cli6 : PeerTable

/-- Result of a syscall wrapper from sock.c: either a returned value or a
call to `die(msg)`, which prints `msg` via perror and terminates the whole
process with `exit(1)` (sock.c:355). -/
inductive SysResult
  | ok (n : Int)
  | fatal (msg : String)
deriving DecidableEq

/-- sock.c:314 `xrecv`: wraps `recvfrom`; a negative raw result is logged
and turned into a return value of `-1` (the caller keeps running), a
non-negative result is passed through.  `raw` is the value `recvfrom`
returned. -/
def xrecv (raw : Int) : SysResult :=
  if raw < 0 then .ok (-1) else .ok raw

/-- sock.c:334 `xread`: wraps `read`; a negative raw result calls
`die("read")`, ending the process. -/
def xread (raw : Int) : SysResult :=
  if raw < 0 then .fatal "read" else .ok raw

/-- sock.c:341 `xwrite`: wraps `write`; a negative raw result calls
`die("write")`, ending the process. -/
def xwrite (raw : Int) : SysResult :=
  if raw < 0 then .fatal "write" else .ok raw

/-- sock.c:232 `xselect`: wraps `select`; a negative raw result calls
`die("select")`; `0` (the timeout indication) and positive counts are
returned unchanged. -/
def xselect (raw : Int) : SysResult :=
  if raw < 0 then .fatal "select" else .ok raw

/-- Result of one invocation of the tunnel-to-network handlers
(`tun_cli_in*`, cli.c:81-158): either exactly one UDP datagram is sent on
the given socket descriptor via `xsendto4`/`xsendto6`, or the table lookup
missed and `die("cli lookup")` ends the process (with `errno = EFAULT`; the
offending private address was formatted for the diagnostic stream at
cli.c:122 / cli.c:146 just before the lookup), or the leading nibble was
neither 4 nor 6 and the packet is dropped with a debug message
(cli.c:93-95). -/
inductive InResult
  | sentUdp (fd : Nat) (dest : PubAddr) (payload : List Nat)
  | fatalLookup (privAddr : List Nat)
  | dropNonIp (b0 : Nat)
deriving DecidableEq

/-- Exact-match lookup in a peer table (`g_hash_table_lookup`). -/
def table_lookup (t : PeerTable) (key : List Nat) : Option PubAddr :=
  List.lookup key t

/-- cli.c:115-117 / cli.c:139-141: in PlanetLab mode the 4-byte TUN PPI
header is removed before the packet is interpreted (`buf+=4; recvd-=4`). -/
def strip_ppi (planetlab : Bool) (buf : List Nat) : List Nat :=
  if planetlab then buf.drop 4 else buf

/-- cli.c:121: the IPv4 private destination key, the 4 bytes at offset 16
of the (possibly PPI-stripped) packet
(`*((uint32_t *)(buf+16))`, i.e. bytes 16..19 in memory order). -/
def priv_addr4 (buf : List Nat) : List Nat :=
  (buf.drop 16).take 4

/-- cli.c:145: the IPv6 private destination key, the 16 bytes at offset 24
of the (possibly PPI-stripped) packet (`memcpy(priv_addr6, buf+24, 16)`). -/
def priv_addr6 (buf : List Nat) : List Nat :=
  (buf.drop 24).take 16

/-- cli.c:113 `tun_cli_in4_aux(fd_udp, state, buf, recvd)`: strip the PPI
header if configured, key on bytes 16..19, send the (stripped) packet to
the looked-up peer with `xsendto4(fd_udp, rec->sa4, buf, recvd)`, or
`die("cli lookup")` on a miss.  `buf` models exactly the `recvd` bytes
read from the tunnel descriptor. -/
def tun_cli_in4_aux (fdUdp : Nat) (st : tun_state) (buf : List Nat) : InResult :=
  let b := strip_ppi st.planetlab buf
  match table_lookup st.cli4 (priv_addr4 b) with
  | some rec => .sentUdp fdUdp rec b
  | none => .fatalLookup (priv_addr4 b)

/-- cli.c:135 `tun_cli_in6_aux(fd_udp, state, buf, recvd)`: same with the
16-byte key at offset 24 and `xsendto6`. -/
def tun_cli_in6_aux (fdUdp : Nat) (st : tun_state) (buf : List Nat) : InResult :=
  let b := strip_ppi st.planetlab buf
  match table_lookup st.cli6 (priv_addr6 b) with
  | some rec => .sentUdp fdUdp rec b
  | none => .fatalLookup (priv_addr6 b)

/-- cli.c:86-96, the dispatch of `tun_cli_in` on the packet just read from
the tunnel: `switch (buf[0] & 0xf0)` routes `0x40` to the IPv4 handler on
`fd_udp4`, `0x60` to the IPv6 handler on `fd_udp6`, and anything else to a
non-fatal debug message.  (`buf` is `char *`; because the `& 0xf0` mask
keeps only bits 4..7 of the low byte, signedness of `char` does not affect
the comparison, so the byte value 0..255 is masked directly.)  `buf`
models the `recvd` bytes `xread` returned. -/
def tun_cli_in (fdUdp4 fdUdp6 : Nat) (st : tun_state) (buf : List Nat) : InResult :=
  let b0 := buf.headD 0
  if b0 &&& 0xf0 = 0x40 then tun_cli_in4_aux fdUdp4 st buf
  else if b0 &&& 0xf0 = 0x60 then tun_cli_in6_aux fdUdp6 st buf
  else .dropNonIp b0

/-- A read environment: for each descriptor, the bytes its next
`read`/`recvfrom` yields. -/
def FdEnv : Type := Nat → List Nat

/-- cli.c:106 `tun_cli_in4(fd_tun, fd_udp, state, buf)`: reads one packet
from its FIRST descriptor argument with `xread` and hands it to
`tun_cli_in4_aux` with its SECOND descriptor argument as the UDP socket. -/
def tun_cli_in4 (fdTun fdUdp : Nat) (st : tun_state) (env : FdEnv) : InResult :=
  tun_cli_in4_aux fdUdp st (env fdTun)

/-- cli.c:99 `tun_cli_in6(fd_tun, fd_udp, state, buf)`: IPv6 analogue. -/
def tun_cli_in6 (fdTun fdUdp : Nat) (st : tun_state) (env : FdEnv) : InResult :=
  tun_cli_in6_aux fdUdp st (env fdTun)

/-- cli.c:81 `tun_cli_in(fd_tun, fd_udp4, fd_udp6, state, buf)` at the
descriptor level: read from `fd_tun`, then dispatch by leading nibble. -/
def tun_cli_in_fd (fdTun fdUdp4 fdUdp6 : Nat) (st : tun_state) (env : FdEnv) : InResult :=
  tun_cli_in fdUdp4 fdUdp6 st (env fdTun)

/-- cli.c:237, the tunnel-ready branch of the single-stack (IPv4) loop:
`(*tun_cli_in_func)(fd_udp, fd_tun, state, buffer)` with
`tun_cli_in_func = &tun_cli_in4` (cli.c:196).  The call passes
`(fd_udp, fd_tun)` positionally into parameters declared
`(fd_tun, fd_udp)` (cli.c:106). -/
def tun_cli_single_tun_branch (fdTun fdUdp : Nat) (st : tun_state) (env : FdEnv) : InResult :=
  tun_cli_in4 fdUdp fdTun st env

/-- cli.c:295, the tunnel-ready branch of the dual-stack loop:
`tun_cli_in(fd_tun, fd_udp4, fd_udp6, state, buffer)`. -/
def tun_cli_dual_tun_branch (fdTun fdUdp4 fdUdp6 : Nat) (st : tun_state) (env : FdEnv) : InResult :=
  tun_cli_in_fd fdTun fdUdp4 fdUdp6 st env

/-- The 4 framing bytes the loops pre-store in front of the working buffer
in PlanetLab mode (cli.c:214-217 and cli.c:271-274:
`buffer[0]=0; buffer[1]=0; buffer[2]=8; buffer[3]=0`), the PPI encoding of
IP framing (protocol 0x0800). -/
def ppiHeader : List Nat := [0, 0, 8, 0]

/-- Result of one invocation of `tun_cli_out` (cli.c:160): the received
payload (with the stored framing bytes re-attached in PlanetLab mode) is
written to the tunnel with `xwrite`, or the pending error queue is drained
with `xrecverr`, or the packet is discarded as empty with a debug
message. -/
inductive OutResult
  | writeTun (payload : List Nat)
  | readErrQueue
  | dropEmpty
deriving DecidableEq

/-- cli.c:160 `tun_cli_out(fd_udp, fd_tun, state, buf)`:
`recvd = xrecv(fd_udp, buf, BUFF_SIZE)`; `recvd > MIN_PKT_SIZE` writes the
packet to the tunnel (prepending the 4 stored framing bytes in PlanetLab
mode: `buf-=4; recvd+=4`), `recvd < 0` drains the socket error queue with
`xrecverr(fd_udp, buf, BUFF_SIZE, 0, NULL)`, and anything else
(`0 <= recvd <= MIN_PKT_SIZE`) is discarded as an empty packet.
`minPkt` is the constant `MIN_PKT_SIZE` (its defining header is not part
of src/, so it is kept abstract), `framing` the 4 bytes stored in front of
the working buffer, `buf` the `recvd` received bytes when `recvd >= 0`. -/
def tun_cli_out (minPkt : Nat) (planetlab : Bool) (framing : List Nat)
    (recvd : Int) (buf : List Nat) : OutResult :=
  if recvd > (minPkt : Int) then
    if planetlab then .writeTun (framing ++ buf) else .writeTun buf
  else if recvd < 0 then .readErrQueue
  else .dropEmpty

/-- Outcome of one iteration of a client loop with respect to loop
control: the loop `break`s cleanly (inactivity timeout), the process dies
inside `xselect`, or the iteration dispatches to the ready descriptors and
the loop continues. -/
inductive LoopOutcome
  | stopped
  | fatal (msg : String)
  | continueLoop (runTun runUdp4 runUdp6 : Bool)
deriving DecidableEq

/-- cli.c:225-241, one iteration of the single-stack loop after `select`
returned `rawSel`: `xselect` dies on a negative raw result; `sel == 0`
(timeout) `break`s out of the `while (loop)` without any error report;
`sel > 0` runs the tunnel branch and/or the UDP branch according to
`FD_ISSET` and the loop continues. -/
def tun_cli_single_iter (rawSel : Int) (tunReady udpReady : Bool) : LoopOutcome :=
  match xselect rawSel with
  | .fatal m => .fatal m
  | .ok n =>
    if n = 0 then .stopped
    else if n > 0 then .continueLoop tunReady udpReady false
    else .continueLoop false false false

/-- cli.c:282-301, one iteration of the dual-stack loop: same loop-control
structure with three descriptors. -/
def tun_cli_dual_iter (rawSel : Int) (tunReady udp4Ready udp6Ready : Bool) : LoopOutcome :=
  match xselect rawSel with
  | .fatal m => .fatal m
  | .ok n =>
    if n = 0 then .stopped
    else if n > 0 then .continueLoop tunReady udp4Ready udp6Ready
    else .continueLoop false false false

/-- Modelled from the spec: the checksum word sum of icmp.c (icmp.c is not
part of src/).  "sum all 16-bit words (network byte order, buffer padded
with a trailing zero byte if odd length)": consecutive byte pairs are read
big-endian; a final lone byte is the high byte of a word padded with a
zero low byte. -/
def sum16 : List Nat → Nat
  | [] => 0
  | [b] => b * 256
  | hi :: lo :: rest => hi * 256 + lo + sum16 rest

/-- Modelled from the spec: one carry-folding step, "adding the upper 16
bits back into the lower 16 bits". -/
def fold1 (s : Nat) : Nat := s / 65536 + s % 65536

/-- Modelled from the spec: the IP/ICMP one's-complement checksum of
icmp.c — word sum, fold carries twice, "then bitwise-complement the
result".  The checksum field is 16 bits wide, so the complement of the low
16 bits of the folded sum is `65535 - low16`. -/
def cksum (buf : List Nat) : Nat :=
  65535 - fold1 (fold1 (sum16 buf)) % 65536

/-- Modelled from the spec: populating the checksum field of a buffer,
"computed with fields zeroed at the point of computation and the checksum
field populated afterward".  `k` is the word index of the 16-bit checksum
field (bytes `2*k` and `2*k+1`); the field is zeroed, the checksum of the
zeroed buffer computed, and its two bytes stored in network order. -/
def checksum_apply (buf : List Nat) (k : Nat) : List Nat :=
  let z := (buf.set (2 * k) 0).set (2 * k + 1) 0
  let c := cksum z
  (buf.set (2 * k) (c / 256)).set (2 * k + 1) (c % 256)

/-- `SO_EE_ORIGIN_ICMP` from linux/errqueue.h, the origin tag tested at
sock.c:295. -/
def SO_EE_ORIGIN_ICMP : Nat := 2

/-- `SO_EE_ORIGIN_LOCAL` from linux/errqueue.h, the origin of a purely
local (non-ICMP) socket error. -/
def SO_EE_ORIGIN_LOCAL : Nat := 1

/-- The fields of `struct sock_extended_err` that xrecverr and the
translation read: origin, ICMP type and code, and the offender address
(4 bytes, from `SO_EE_OFFENDER`). -/
structure sock_extended_err where
  ee_origin : Nat
  ee_type : Nat
  ee_code : Nat
  ee_offender : List Nat
deriving DecidableEq

/-- The field of the tunnel state the translation needs: the private
address of the tunnel endpoint that sent the original datagram, used as
the destination of the synthesized packet.  `xrecverr` receives the state
as a nullable pointer; the client's call site passes NULL (cli.c:175). -/
structure icmp_state where
  private_addr4 : List Nat
deriving DecidableEq

/-- Modelled from the spec: `forge_icmp` of icmp.c (icmp.c is not part of
src/), following §4.2 of the spec.  Builds a minimal IPv4 header (version
4, header length 5 words, TTL 255, protocol ICMP = 1, total length =
header + ICMP message size, source = the offender address from the error
context, destination = the private tunnel endpoint address), then the ICMP
message (type/code copied verbatim, payload = first 8 bytes of the
original offending datagram), and populates both checksums with
`checksum_apply` (IP checksum field at header bytes 10-11, ICMP checksum
field at message bytes 2-3).  Header fields the spec does not mention
(TOS, id, fragment) are zero. -/
def forge_icmp (err : sock_extended_err) (orig : List Nat) (privDest : List Nat) :
    List Nat :=
  let payload := orig.take 8
  let icmpLen := 8 + payload.length
  let totalLen := 20 + icmpLen
  let ipHdr := checksum_apply
    ([0x45, 0, totalLen / 256, totalLen % 256,
      0, 0, 0, 0,
      255, 1, 0, 0] ++ err.ee_offender ++ privDest) 5
  let icmpMsg := checksum_apply
    ([err.ee_type, err.ee_code, 0, 0, 0, 0, 0, 0] ++ payload) 1
  ipHdr ++ icmpMsg

/-- The externally visible actions of one `IP_RECVERR` control message
handled by `xrecverr` (sock.c:290-307): the diagnostic printed (ICMP
type/code via `print_icmp_type` for an ICMP-origin error, the
"non-icmp err msg" debug line otherwise) and, when a tunnel state was
supplied, the packet written to `fd_out` with `xwrite`. -/
inductive ErrAction
  | printIcmpType (t c : Nat)
  | printNonIcmp
  | writeTunPkt (pkt : List Nat)
deriving DecidableEq

/-- sock.c:290-307, the handling of one control message of level `SOL_IP`
and type `IP_RECVERR` inside `xrecverr(fd, buf, buflen, fd_out, state)`:
the origin test at sock.c:295 only selects the diagnostic; the
translation-and-forward block is guarded solely by `if (state)`
(sock.c:299) and runs regardless of the origin.  `orig` is the data read
from the error queue into the iovec (the first `sizeof(struct icmphdr)` =
8 bytes of the original offending datagram). -/
def xrecverr_cmsg (st : Option icmp_state) (err : sock_extended_err)
    (orig : List Nat) : List ErrAction :=
  (if err.ee_origin = SO_EE_ORIGIN_ICMP
   then [.printIcmpType err.ee_type err.ee_code]
   else [.printNonIcmp])
  ++ (match st with
      | some s => [.writeTunPkt (forge_icmp err orig s.private_addr4)]
      | none => [])

/-! Concrete data for the spec's scenarios. -/

/-- The steady-forward scenario packet: a 40-byte IPv4 packet (leading
byte `0x45`) whose destination field at offset 16 is `10.0.0.5`. -/
def pkt40 : List Nat :=
  0x45 :: List.replicate 15 0 ++ [10, 0, 0, 5] ++ List.replicate 20 0

/-- The steady-forward scenario table: `10.0.0.5 -> 203.0.113.9:5000`. -/
def steadyTable : PeerTable :=
  [([10, 0, 0, 5], ⟨[203, 0, 113, 9], 5000⟩)]

/-- The steady-forward scenario state (no PlanetLab framing). -/
def steadyState : tun_state := ⟨false, steadyTable, []⟩

/-- A read environment where descriptor 3 (the tunnel device) yields the
scenario packet and every other descriptor yields 40 zero bytes. -/
def env40 : FdEnv := fun fd => if fd = 3 then pkt40 else List.replicate 40 0

/-- The ICMP-relay scenario error context: origin ICMP, type 3, code 1,
offender `198.51.100.7` (sock.c reads these from the
`sock_extended_err`). -/
def relayErr : sock_extended_err := ⟨SO_EE_ORIGIN_ICMP, 3, 1, [198, 51, 100, 7]⟩

/-- The ICMP-relay scenario: the 8 bytes of the original offending
datagram read from the error queue. -/
def relayData : List Nat := [69, 0, 0, 40, 18, 52, 0, 0]

/-- The packet the translation synthesizes for the relay scenario when a
tunnel state for private peer `10.0.0.5` is supplied. -/
def relayPkt : List Nat := forge_icmp relayErr relayData [10, 0, 0, 5]

/-- A large even-length buffer: two zero bytes (the checksum field at word
index 0), then 65538 words of `0xffff` and one word of `0x0001`.  Its
zeroed word sum is `65536 * 65536 + 65535`, large enough that folding
carries twice does not reduce it below 16 bits. -/
def bigTail : List Nat := List.replicate (2 * 65538) 255 ++ [0, 1]

/-- The checksum counterexample buffer, `0, 0` followed by `bigTail`
(length 131080, even). -/
def bigBuf : List Nat := 0 :: 0 :: bigTail

/-! Helper lemmas. -/

theorem fold1_le_self (x : Nat) : fold1 x ≤ x := by unfold fold1; omega

theorem fold1_le_131070 (x : Nat) (h : x ≤ 4294967295) : fold1 x ≤ 131070 := by
  unfold fold1; omega

theorem fold1_le_65535 (x : Nat) (h : x ≤ 131070) : fold1 x ≤ 65535 := by
  unfold fold1; omega

theorem fold1_mod_65535 (x : Nat) : fold1 x % 65535 = x % 65535 := by
  unfold fold1; omega

theorem fold1_eq_zero (x : Nat) (h : fold1 x = 0) : x = 0 := by
  unfold fold1 at h; omega

/-- The core one's-complement identity: for a word sum `S` small enough
that folding twice fully reduces it, adding the complement of the folded
sum back and folding again yields `0xffff`. -/
theorem cksum_arith (S : Nat) (h : S ≤ 4294901760) :
    fold1 (fold1 (S + (65535 - fold1 (fold1 S) % 65536))) % 65536 = 65535 := by
  set F := fold1 (fold1 S) with hF
  have hF1 : F ≤ 65535 := fold1_le_65535 _ (fold1_le_131070 _ (by omega))
  have hFle : F ≤ S := le_trans (fold1_le_self _) (fold1_le_self _)
  have hFmod : F % 65535 = S % 65535 := by
    rw [hF, fold1_mod_65535, fold1_mod_65535]
  have hFm : F % 65536 = F := Nat.mod_eq_of_lt (by omega)
  set T := S + (65535 - F % 65536) with hT
  have hTb : T ≤ 4294967295 := by omega
  set G := fold1 (fold1 T) with hG
  have hG1 : G ≤ 65535 := fold1_le_65535 _ (fold1_le_131070 _ hTb)
  have hGmod : G % 65535 = T % 65535 := by rw [hG, fold1_mod_65535, fold1_mod_65535]
  have hGne : G ≠ 0 := by
    intro h0
    have hT0 : T = 0 := fold1_eq_zero _ (fold1_eq_zero _ h0)
    omega
  omega

/-- Overwriting the two bytes of an aligned 16-bit field changes the word
sum by exactly the written word, relative to the field zeroed. -/
theorem sum16_set_pair (B : List Nat) (k hi lo : Nat) (hk : 2*k+1 < B.length) :
    sum16 ((B.set (2*k) hi).set (2*k+1) lo)
      = sum16 ((B.set (2*k) 0).set (2*k+1) 0) + (hi * 256 + lo) := by
  induction B using sum16.induct generalizing k with
  | case1 => simp at hk
  | case2 b => simp at hk
  | case3 hi0 lo0 rest ih =>
    match k with
    | 0 => simp [sum16]; ring
    | k' + 1 =>
      have h2 : 2 * (k' + 1) + 1 = ((2 * k' + 1) + 1) + 1 := by ring
      have h1 : 2 * (k' + 1) = (2 * k' + 1) + 1 := by ring
      rw [h2, h1, List.set_cons_succ, List.set_cons_succ, List.set_cons_succ,
          List.set_cons_succ]
      have h3 : (2 * k' + 1) = (2 * k') + 1 := rfl
      rw [h3, List.set_cons_succ, List.set_cons_succ]
      simp only [sum16]
      have hk2 : 2 * k' + 1 < rest.length := by simp at hk; omega
      rw [ih k' hk2]
      ring

theorem sum16_append (l1 l2 : List Nat) (h : l1.length % 2 = 0) :
    sum16 (l1 ++ l2) = sum16 l1 + sum16 l2 := by
  induction l1 using sum16.induct with
  | case1 => simp [sum16]
  | case2 b => simp at h
  | case3 hi lo rest ih =>
    simp only [List.cons_append, sum16, List.append_eq]
    rw [ih (by simp at h; omega)]
    ring

theorem sum16_replicate255 (n : Nat) :
    sum16 (List.replicate (2 * n) 255) = n * 65535 := by
  induction n with
  | zero => simp [sum16]
  | succ m ih =>
    have h1 : 2 * (m + 1) = (2 * m) + 1 + 1 := by ring
    rw [h1, List.replicate_succ, List.replicate_succ]
    simp only [sum16]
    rw [ih]
    ring

theorem sum16_le (L : List Nat) (h : ∀ b ∈ L, b ≤ 255) :
    sum16 L ≤ ((L.length + 1) / 2) * 65535 := by
  induction L using sum16.induct with
  | case1 => simp [sum16]
  | case2 b =>
    have := h b (by simp)
    simp [sum16]
    omega
  | case3 hi lo rest ih =>
    have h1 := h hi (by simp)
    have h2 := h lo (by simp)
    have h3 : ∀ b ∈ rest, b ≤ 255 := fun b hb => h b (by simp [hb])
    have := ih h3
    simp only [sum16, List.length_cons]
    have h4 : (rest.length + 1 + 1 + 1) / 2 = (rest.length + 1) / 2 + 1 := by omega
    rw [h4]
    nlinarith

theorem sum16_cons_cons (hi lo : Nat) (rest : List Nat) :
    sum16 (hi :: lo :: rest) = hi * 256 + lo + sum16 rest := rfl

theorem bigTail_sum : sum16 bigTail = 4295032831 := by
  have h3 : (List.replicate (2 * 65538) (255:Nat)).length % 2 = 0 := by
    rw [List.length_replicate]
  have h01 : sum16 [0, 1] = 1 := rfl
  rw [bigTail, sum16_append _ _ h3, sum16_replicate255, h01]

theorem len_aux (n : Nat) :
    (0 :: 0 :: (List.replicate n 255 ++ [0, 1]) : List Nat).length = n + 4 := by
  simp

theorem bigBuf_len : bigBuf.length = 131080 := by
  rw [bigBuf, bigTail, len_aux]

theorem bigBuf_zeroed : (bigBuf.set (2 * 0) 0).set (2 * 0 + 1) 0 = bigBuf := by
  rw [bigBuf]
  exact rfl

theorem cksum_bigBuf : cksum bigBuf = 65535 := by
  have hs : sum16 bigBuf = 4295032831 := by
    rw [bigBuf, sum16_cons_cons, bigTail_sum]
  rw [cksum, hs]
  norm_num [fold1]

theorem apply_bigBuf : checksum_apply bigBuf 0 = 255 :: 255 :: bigTail := by
  show (bigBuf.set (2 * 0) (cksum ((bigBuf.set (2*0) 0).set (2*0+1) 0) / 256)).set
      (2 * 0 + 1) (cksum ((bigBuf.set (2*0) 0).set (2*0+1) 0) % 256) = _
  rw [bigBuf_zeroed, cksum_bigBuf]
  rw [bigBuf]
  exact rfl

/-- A state with empty peer tables and no PlanetLab framing. -/
def emptyState : tun_state := ⟨false, [], []⟩

/-- The steady-forward state with PlanetLab framing enabled. -/
def plState : tun_state := ⟨true, steadyTable, []⟩

/-! Claim theorems. -/

/-- C1.  The steady-forward scenario evaluated at the code's two call
sites, with tunnel descriptor 3 yielding the scenario packet and the UDP
descriptors yielding 40 zero bytes.  The dual-stack loop (cli.c:295)
behaves as claimed: it reads the packet from the tunnel descriptor and
sends the identical 40-byte payload on the IPv4 UDP socket to
203.0.113.9:5000, as exactly one datagram.  The single-stack loop
(cli.c:237), however, passes `(fd_udp, fd_tun)` positionally into
`tun_cli_in4`'s `(fd_tun, fd_udp)` parameters (matching the stale doc
comment at cli.c:35-41 instead of the definition), so it reads from the
UDP socket instead of the tunnel device: here it reads the 40 zero bytes,
looks up 0.0.0.0, and dies in the table lookup instead of sending the
scenario datagram.  This is the failing evaluation for the code-bug
verdict on the claim's single-stack half. -/
theorem claim_c1_steady_forward :
    tun_cli_dual_tun_branch 3 4 5 steadyState env40
        = .sentUdp 4 ⟨[203, 0, 113, 9], 5000⟩ pkt40
    ∧ pkt40.length = 40
    ∧ tun_cli_single_tun_branch 3 4 steadyState env40 = .fatalLookup [0, 0, 0, 0] := by
  refine ⟨?_, ?_, ?_⟩ <;> decide

/-- C2 (counterexample).  At the relay scenario's error context
{type 3, code 1, offender 198.51.100.7, 8 data bytes}, the client's
error-queue call — `xrecverr(fd_udp, buf, BUFF_SIZE, 0, NULL)` at
cli.c:175, i.e. with no tunnel state — only prints the ICMP type and code:
no packet is synthesized and nothing is written to the tunnel device,
contradicting the claim that the engine writes the synthesized packet. -/
theorem claim_c2_counterexample :
    xrecverr_cmsg none relayErr relayData = [.printIcmpType 3 1] := by decide

/-- C2 (amended).  Translation runs exactly when `xrecverr` is given a
tunnel state (sock.c:299): with a state for private peer 10.0.0.5, the
relay scenario produces the type/code diagnostic followed by a write of
the synthesized packet, and that packet has IP source 198.51.100.7, IP
destination 10.0.0.5, TTL 255, protocol ICMP, ICMP type 3 and code 1,
payload equal to the 8 bytes of the original datagram, and both the IP
header checksum and the ICMP checksum self-verify (recompute to 0). -/
theorem claim_c2_icmp_relay_amended :
    xrecverr_cmsg (some ⟨[10, 0, 0, 5]⟩) relayErr relayData
        = [.printIcmpType 3 1, .writeTunPkt relayPkt]
    ∧ (relayPkt.drop 12).take 4 = [198, 51, 100, 7]
    ∧ (relayPkt.drop 16).take 4 = [10, 0, 0, 5]
    ∧ relayPkt.getD 8 0 = 255
    ∧ relayPkt.getD 9 0 = 1
    ∧ relayPkt.getD 20 0 = 3
    ∧ relayPkt.getD 21 0 = 1
    ∧ relayPkt.drop 28 = relayData
    ∧ relayPkt.length = 36
    ∧ cksum (relayPkt.take 20) = 0
    ∧ cksum (relayPkt.drop 20) = 0 := by
  refine ⟨?_, ?_, ?_, ?_, ?_, ?_, ?_, ?_, ?_, ?_, ?_⟩ <;> decide

/-- C3 (counterexample).  An even-length buffer on which the claimed
self-verification law fails: `bigBuf` (131080 bytes, checksum field at
word index 0) has zeroed word sum `65536 * 65536 + 65535`, which two
carry folds reduce only to `65536`; `checksum_apply` therefore stores
`0xffff`, and the recomputed checksum over the populated buffer is
`0xffff`, not `0`.  The claim's universal quantification over all
even-length buffers is thus false for the spec's own algorithm. -/
theorem claim_c3_counterexample :
    bigBuf.length % 2 = 0 ∧ cksum (checksum_apply bigBuf 0) = 65535 := by
  constructor
  · rw [bigBuf_len]
  · rw [apply_bigBuf, cksum, sum16_cons_cons, bigTail_sum]
    norm_num [fold1]

/-- C3 (amended).  For every buffer of even length at most 131070 bytes
(so that the 16-bit word sum stays below `2^32 - 2^16` and two carry
folds fully reduce it — every packet or header the program checksums is
far below this), with byte values below 256 and the checksum field
word-aligned inside the buffer, recomputing the checksum over the buffer
with its field populated by `checksum_apply` yields zero. -/
theorem claim_c3_checksum_self_verify (B : List Nat) (k : Nat)
    (hlen : B.length % 2 = 0) (hsize : B.length ≤ 131070)
    (hk : 2 * k + 1 < B.length) (hbytes : ∀ b ∈ B, b ≤ 255) :
    cksum (checksum_apply B k) = 0 := by
  have hzb : ∀ b ∈ (B.set (2 * k) 0).set (2 * k + 1) 0, b ≤ 255 := by
    intro b hb
    rcases List.mem_or_eq_of_mem_set hb with hb2 | rfl
    · rcases List.mem_or_eq_of_mem_set hb2 with hb3 | rfl
      · exact hbytes b hb3
      · omega
    · omega
  have hzlen : ((B.set (2 * k) 0).set (2 * k + 1) 0).length = B.length := by simp
  have hS : sum16 ((B.set (2 * k) 0).set (2 * k + 1) 0) ≤ 4294901760 := by
    have h5 := sum16_le _ hzb
    rw [hzlen] at h5
    have h6 : ((B.length + 1) / 2) * 65535 ≤ 65535 * 65535 := by
      have : (B.length + 1) / 2 ≤ 65535 := by omega
      nlinarith
    omega
  set S := sum16 ((B.set (2 * k) 0).set (2 * k + 1) 0) with hSdef
  set c := cksum ((B.set (2 * k) 0).set (2 * k + 1) 0) with hcdef
  have hc65535 : c ≤ 65535 := by rw [hcdef]; unfold cksum; omega
  have happ : sum16 (checksum_apply B k) = S + c := by
    show sum16 ((B.set (2 * k) (c / 256)).set (2 * k + 1) (c % 256)) = S + c
    rw [sum16_set_pair B k _ _ hk, hSdef]
    omega
  have hcS : c = 65535 - fold1 (fold1 S) % 65536 := by
    rw [hcdef]; unfold cksum; rw [hSdef]
  unfold cksum
  rw [happ, hcS]
  rw [cksum_arith S hS]

/-- C3 (witness).  The amended theorem applied to a concrete 20-byte IPv4
header with checksum field at word index 5. -/
theorem claim_c3_witness :
    ([0x45, 0, 0, 20, 0, 0, 0, 0, 255, 1, 0, 0, 10, 0, 0, 1, 10, 0, 0, 2] :
        List Nat).length % 2 = 0
    ∧ cksum (checksum_apply
        [0x45, 0, 0, 20, 0, 0, 0, 0, 255, 1, 0, 0, 10, 0, 0, 1, 10, 0, 0, 2] 5) = 0 :=
  ⟨by decide,
   claim_c3_checksum_self_verify
     [0x45, 0, 0, 20, 0, 0, 0, 0, 255, 1, 0, 0, 10, 0, 0, 1, 10, 0, 0, 2] 5
     (by decide) (by decide) (by decide) (by decide)⟩

/-- C4.  The dispatch of `tun_cli_in` (cli.c:86-96) on the leading byte of
the packet read from the tunnel, for every packet content: a high nibble
of 4 routes the buffer to the IPv4 handler, a high nibble of 6 to the IPv6
handler, and any other leading nibble yields the non-fatal drop, reaching
neither handler. -/
theorem claim_c4_dispatch (fd4 fd6 : Nat) (st : tun_state) (b0 : Nat) (rest : List Nat) :
    (b0 &&& 0xf0 = 0x40 →
      tun_cli_in fd4 fd6 st (b0 :: rest) = tun_cli_in4_aux fd4 st (b0 :: rest))
    ∧ (b0 &&& 0xf0 = 0x60 →
      tun_cli_in fd4 fd6 st (b0 :: rest) = tun_cli_in6_aux fd6 st (b0 :: rest))
    ∧ (b0 &&& 0xf0 ≠ 0x40 → b0 &&& 0xf0 ≠ 0x60 →
      tun_cli_in fd4 fd6 st (b0 :: rest) = .dropNonIp b0) := by
  refine ⟨fun h => ?_, fun h => ?_, fun h1 h2 => ?_⟩
  · simp [tun_cli_in, h]
  · simp [tun_cli_in, h]
  · simp [tun_cli_in, h1, h2]

/-- C4 (witness).  The dispatch theorem at leading bytes 0x45, 0x6a and
0xe5. -/
theorem claim_c4_dispatch_witness :
    tun_cli_in 4 5 steadyState (0x45 :: [9]) = tun_cli_in4_aux 4 steadyState (0x45 :: [9])
    ∧ tun_cli_in 4 5 steadyState (0x6a :: [9]) = tun_cli_in6_aux 5 steadyState (0x6a :: [9])
    ∧ tun_cli_in 4 5 steadyState (0xe5 :: [9]) = .dropNonIp 0xe5 :=
  ⟨(claim_c4_dispatch 4 5 steadyState 0x45 [9]).1 (by decide),
   (claim_c4_dispatch 4 5 steadyState 0x6a [9]).2.1 (by decide),
   (claim_c4_dispatch 4 5 steadyState 0xe5 [9]).2.2 (by decide) (by decide)⟩

/-- C5.  Whenever the private destination key (bytes 16..19 after the
optional PPI strip for IPv4, bytes 24..39 for IPv6) has no entry in the
family's table, the handler ends in `die("cli lookup")` — modelled by the
`fatalLookup` result carrying the offending private address, which the
code formats for the diagnostic stream (cli.c:122, cli.c:146) immediately
before the lookup. -/
theorem claim_c5_lookup_miss (fd : Nat) (st : tun_state) (buf : List Nat) :
    (table_lookup st.cli4 (priv_addr4 (strip_ppi st.planetlab buf)) = none →
      tun_cli_in4_aux fd st buf
        = .fatalLookup (priv_addr4 (strip_ppi st.planetlab buf)))
    ∧ (table_lookup st.cli6 (priv_addr6 (strip_ppi st.planetlab buf)) = none →
      tun_cli_in6_aux fd st buf
        = .fatalLookup (priv_addr6 (strip_ppi st.planetlab buf))) := by
  constructor
  · intro h
    simp [tun_cli_in4_aux, h]
  · intro h
    simp [tun_cli_in6_aux, h]

/-- C5 (witness).  The unmapped-peer scenario: the scenario packet against
empty tables. -/
theorem claim_c5_lookup_miss_witness :
    tun_cli_in4_aux 7 emptyState pkt40
      = .fatalLookup (priv_addr4 (strip_ppi emptyState.planetlab pkt40))
    ∧ tun_cli_in6_aux 7 emptyState pkt40
      = .fatalLookup (priv_addr6 (strip_ppi emptyState.planetlab pkt40)) :=
  ⟨(claim_c5_lookup_miss 7 emptyState pkt40).1 (by decide),
   (claim_c5_lookup_miss 7 emptyState pkt40).2 (by decide)⟩

/-- C6 (counterexample).  A zero-length receive is NOT routed to the
error-queue read: cli.c:173 only sends `recvd < 0` there, so `recvd = 0`
falls into the empty-packet discard.  Additionally a receive of exactly
`MIN_PKT_SIZE` bytes (28 here) is discarded, although it is not "shorter
than" the minimum and the claim would have it written. -/
theorem claim_c6_counterexample :
    tun_cli_out 28 false [] 0 [] = .dropEmpty
    ∧ tun_cli_out 28 false [] 0 [] ≠ .readErrQueue
    ∧ tun_cli_out 28 false [] 28 (List.replicate 28 0) = .dropEmpty := by
  refine ⟨?_, ?_, ?_⟩ <;> decide

/-- C6 (amended).  The network-to-tunnel dispatch of `tun_cli_out`
(cli.c:160-180), for every `MIN_PKT_SIZE` value: a strictly negative
receive is routed to the error-queue read; a receive of length between 0
and `MIN_PKT_SIZE` inclusive (zero-length included) is discarded as an
empty packet; a receive strictly longer than `MIN_PKT_SIZE` is written to
the tunnel device, with the stored framing bytes prepended in PlanetLab
mode. -/
theorem claim_c6_out_dispatch_amended (minPkt : Nat) (pl : Bool)
    (framing buf : List Nat) (recvd : Int) :
    (recvd < 0 → tun_cli_out minPkt pl framing recvd buf = .readErrQueue)
    ∧ (0 ≤ recvd → recvd ≤ (minPkt : Int) →
        tun_cli_out minPkt pl framing recvd buf = .dropEmpty)
    ∧ ((minPkt : Int) < recvd →
        tun_cli_out minPkt pl framing recvd buf
          = if pl then .writeTun (framing ++ buf) else .writeTun buf) := by
  refine ⟨fun h => ?_, fun h0 hm => ?_, fun h => ?_⟩
  · have h1 : ¬(recvd > (minPkt : Int)) := by omega
    simp only [tun_cli_out, if_neg h1, if_pos h]
  · have h1 : ¬(recvd > (minPkt : Int)) := by omega
    have h2 : ¬(recvd < 0) := by omega
    simp only [tun_cli_out, if_neg h1, if_neg h2]
  · simp only [tun_cli_out, if_pos h]

/-- C6 (witness).  The amended dispatch at receives of length -1, 5 and
40 with `MIN_PKT_SIZE = 28`. -/
theorem claim_c6_out_dispatch_witness :
    tun_cli_out 28 false [] (-1) [] = .readErrQueue
    ∧ tun_cli_out 28 false [] 5 [1, 2, 3, 4, 5] = .dropEmpty
    ∧ tun_cli_out 28 false [] 40 (List.replicate 40 1)
        = .writeTun (List.replicate 40 1) := by
  refine ⟨(claim_c6_out_dispatch_amended 28 false [] [] (-1)).1 (by norm_num),
    (claim_c6_out_dispatch_amended 28 false [] [1, 2, 3, 4, 5] 5).2.1
      (by norm_num) (by norm_num), ?_⟩
  have h := (claim_c6_out_dispatch_amended 28 false [] (List.replicate 40 1) 40).2.2
    (by norm_num)
  simpa using h

/-- C7 (counterexample).  For a non-ICMP-origin error (origin
`SO_EE_ORIGIN_LOCAL`) translation is NOT skipped whenever a tunnel state
is supplied: the `if (state)` guard at sock.c:299 does not test the
origin, so a packet is forged and written all the same, contradicting the
claim that no packet is produced or written. -/
theorem claim_c7_counterexample :
    ErrAction.writeTunPkt (forge_icmp ⟨SO_EE_ORIGIN_LOCAL, 100, 0, [192, 0, 2, 1]⟩
        [1, 2, 3, 4, 5, 6, 7, 8] [10, 0, 0, 5])
      ∈ xrecverr_cmsg (some ⟨[10, 0, 0, 5]⟩)
          ⟨SO_EE_ORIGIN_LOCAL, 100, 0, [192, 0, 2, 1]⟩ [1, 2, 3, 4, 5, 6, 7, 8] := by
  decide

/-- C7 (amended).  For a non-ICMP-origin error the diagnostic is the
generic "non-icmp err msg" line (the error type is not printed), and
whether a packet is produced depends only on whether a tunnel state is
supplied: the client invocation (no state, cli.c:175) produces no packet,
while a state-bearing invocation forges and writes a packet even for a
non-ICMP-origin error. -/
theorem claim_c7_non_icmp_amended (err : sock_extended_err) (orig : List Nat)
    (s : icmp_state) (h : err.ee_origin ≠ SO_EE_ORIGIN_ICMP) :
    xrecverr_cmsg none err orig = [.printNonIcmp]
    ∧ xrecverr_cmsg (some s) err orig
        = [.printNonIcmp, .writeTunPkt (forge_icmp err orig s.private_addr4)] := by
  constructor <;> simp [xrecverr_cmsg, h]

/-- C7 (witness).  The amended theorem at a concrete local-origin
error. -/
theorem claim_c7_non_icmp_witness :
    xrecverr_cmsg none ⟨SO_EE_ORIGIN_LOCAL, 100, 0, [192, 0, 2, 1]⟩ [9]
        = [.printNonIcmp]
    ∧ xrecverr_cmsg (some ⟨[10, 0, 0, 6]⟩) ⟨SO_EE_ORIGIN_LOCAL, 100, 0, [192, 0, 2, 1]⟩ [9]
        = [.printNonIcmp,
           .writeTunPkt (forge_icmp ⟨SO_EE_ORIGIN_LOCAL, 100, 0, [192, 0, 2, 1]⟩ [9]
             (icmp_state.private_addr4 ⟨[10, 0, 0, 6]⟩))] :=
  claim_c7_non_icmp_amended ⟨SO_EE_ORIGIN_LOCAL, 100, 0, [192, 0, 2, 1]⟩ [9]
    ⟨[10, 0, 0, 6]⟩ (by decide)

/-- C8.  Framing round trip in PlanetLab mode: for every packet whose
4-byte PPI prefix is the constant IP-framing header `[0,0,8,0]` the
engine stores in front of its working buffer, the tunnel-to-network
handler strips the prefix and sends the bare packet, and the
network-to-tunnel handler, on receiving that bare packet, re-attaches the
stored constant prefix and writes a packet byte-identical to the
original, prefix included. -/
theorem claim_c8_framing_roundtrip (fd : Nat) (st : tun_state) (pkt : List Nat)
    (dest : PubAddr) (minPkt : Nat) (recvd : Int)
    (hpl : st.planetlab = true)
    (hpre : pkt.take 4 = ppiHeader)
    (hlk : table_lookup st.cli4 (priv_addr4 (pkt.drop 4)) = some dest)
    (hrecvd : (minPkt : Int) < recvd) :
    tun_cli_in4_aux fd st pkt = .sentUdp fd dest (pkt.drop 4)
    ∧ tun_cli_out minPkt true ppiHeader recvd (pkt.drop 4) = .writeTun pkt := by
  constructor
  · simp [tun_cli_in4_aux, strip_ppi, hpl, hlk]
  · simp only [tun_cli_out, if_pos hrecvd]
    rw [if_pos trivial, ← hpre, List.take_append_drop]

/-- C8 (witness).  The round trip on the scenario packet behind a PPI
prefix. -/
theorem claim_c8_framing_witness :
    tun_cli_in4_aux 6 plState (ppiHeader ++ pkt40)
      = .sentUdp 6 ⟨[203, 0, 113, 9], 5000⟩ ((ppiHeader ++ pkt40).drop 4)
    ∧ tun_cli_out 28 true ppiHeader 40 ((ppiHeader ++ pkt40).drop 4)
      = .writeTun (ppiHeader ++ pkt40) :=
  claim_c8_framing_roundtrip 6 plState (ppiHeader ++ pkt40) ⟨[203, 0, 113, 9], 5000⟩
    28 40 (by decide) (by decide) (by decide) (by decide)

/-- C9.  When `select` reports no ready descriptor (raw result 0, the
inactivity timeout), one iteration of either loop — whatever the stale
readiness flags say — leaves the `while (loop)` via `break` (cli.c:232-234
and cli.c:290-292) and the run function returns: the terminal `stopped`
outcome, distinct from every `fatal` outcome, with no error reported
(`xselect` only dies on a negative raw result, sock.c:241). -/
theorem claim_c9_idle_shutdown (tunReady udpReady t2 u4 u6 : Bool) :
    tun_cli_single_iter 0 tunReady udpReady = .stopped
    ∧ tun_cli_dual_iter 0 t2 u4 u6 = .stopped := by
  constructor <;> rfl

/-- C10.  Error-handling asymmetry of the transport wrappers, for every
negative raw syscall result: `xrecv` turns it into an ordinary `-1`
return (and `tun_cli_out` then routes it to the error-queue read, so the
loop continues), while `xread` and `xwrite` call `die`, terminating the
whole process. -/
theorem claim_c10_error_asymmetry (raw : Int) (minPkt : Nat) (pl : Bool)
    (framing buf : List Nat) (h : raw < 0) :
    xrecv raw = .ok (-1)
    ∧ xread raw = .fatal "read"
    ∧ xwrite raw = .fatal "write"
    ∧ tun_cli_out minPkt pl framing raw buf = .readErrQueue := by
  refine ⟨?_, ?_, ?_, ?_⟩
  · simp [xrecv, h]
  · simp [xread, h]
  · simp [xwrite, h]
  · have h1 : ¬(raw > (minPkt : Int)) := by omega
    simp only [tun_cli_out, if_neg h1, if_pos h]

/-- C10 (witness).  The asymmetry theorem at raw result -7. -/
theorem claim_c10_error_asymmetry_witness :
    xrecv (-7) = .ok (-1)
    ∧ xread (-7) = .fatal "read"
    ∧ xwrite (-7) = .fatal "write"
    ∧ tun_cli_out 28 false [] (-7) [] = .readErrQueue :=
  claim_c10_error_asymmetry (-7) 28 false [] [] (by norm_num)

end Udptun
